import Mathlib

set_option maxRecDepth 100000

/-!
Shallow embedding of `src/app.py` (a LINE-webhook chat relay) and proofs of
the specification's claims about it.

The application-level functions (`verify_signature`, `truncate_text`,
`decide_response_params`, `webhook`) are translated directly from the Python
source.  The cryptographic and encoding primitives the source obtains from
Python's standard library (`hashlib.sha256`, `hmac`, `base64.b64encode`,
UTF-8 encoding) are implemented here concretely over `List Nat` byte strings
so that every definition is executable and the signature-verification claims
are about the real digest function.  External services (the LINE SDK's
webhook parser, the DeepSeek completion endpoint, the LINE push API) are
modelled as oracle inputs to the handler: the handler's observable behaviour
is its HTTP response text together with the list of completion calls it
issues and the list of push messages it dispatches.
-/

/-! ## Base64 encoding (standard alphabet, with padding), as `base64.b64encode` -/

/-- The standard base64 alphabet. -/
def b64Table : List Char :=
  "ABCDEFGHIJKLMNOPQRSTUVWXYZabcdefghijklmnopqrstuvwxyz0123456789+/".data

/-- Character for a 6-bit value. -/
def b64Char (n : Nat) : Char := b64Table.getD n 'A'

/-- Numeric value of a base64 character (used only in the decoding inverse). -/
def b64Val (c : Char) : Nat := b64Table.indexOf c

/-- Base64-encode a byte list, three bytes at a time, padding with `=`. -/
def b64EncodeList : List Nat → List Char
  | b0 :: b1 :: b2 :: rest =>
      b64Char (b0 / 4) :: b64Char ((b0 % 4) * 16 + b1 / 16) ::
      b64Char ((b1 % 16) * 4 + b2 / 64) :: b64Char (b2 % 64) :: b64EncodeList rest
  | [b0, b1] => [b64Char (b0 / 4), b64Char ((b0 % 4) * 16 + b1 / 16), b64Char ((b1 % 16) * 4), '=']
  | [b0] => [b64Char (b0 / 4), b64Char ((b0 % 4) * 16), '=', '=']
  | [] => []

/-- Base64 decoding, the left inverse of `b64EncodeList` on byte lists. -/
def b64DecodeList : List Char → List Nat
  | c0 :: c1 :: c2 :: c3 :: rest =>
      if c2 = '=' then [b64Val c0 * 4 + b64Val c1 / 16]
      else if c3 = '=' then
        [b64Val c0 * 4 + b64Val c1 / 16, (b64Val c1 % 16) * 16 + b64Val c2 / 4]
      else
        (b64Val c0 * 4 + b64Val c1 / 16) :: ((b64Val c1 % 16) * 16 + b64Val c2 / 4) ::
        ((b64Val c2 % 4) * 64 + b64Val c3) :: b64DecodeList rest
  | _ => []

/-- Base64 encoding as a string, as `base64.b64encode(h).decode()` produces. -/
def b64encode (bytes : List Nat) : String := ⟨b64EncodeList bytes⟩

/-! ## SHA-256 over byte lists, as `hashlib.sha256` -/

/-- Two to the thirty-second power: the word modulus of SHA-256. -/
def M32 : Nat := 4294967296

/-- Right rotation of a 32-bit word. -/
def rotr32 (n x : Nat) : Nat := ((x >>> n) ||| (x <<< (32 - n))) % M32

/-- Bitwise complement within 32 bits. -/
def not32 (x : Nat) : Nat := x ^^^ 4294967295

/-- SHA-256 choice function. -/
def sha256Ch (x y z : Nat) : Nat := (x &&& y) ^^^ (not32 x &&& z)

/-- SHA-256 majority function. -/
def sha256Maj (x y z : Nat) : Nat := (x &&& y) ^^^ (x &&& z) ^^^ (y &&& z)

/-- SHA-256 big sigma 0. -/
def bigSigma0 (x : Nat) : Nat := rotr32 2 x ^^^ rotr32 13 x ^^^ rotr32 22 x

/-- SHA-256 big sigma 1. -/
def bigSigma1 (x : Nat) : Nat := rotr32 6 x ^^^ rotr32 11 x ^^^ rotr32 25 x

/-- SHA-256 small sigma 0. -/
def smallSigma0 (x : Nat) : Nat := rotr32 7 x ^^^ rotr32 18 x ^^^ (x >>> 3)

/-- SHA-256 small sigma 1. -/
def smallSigma1 (x : Nat) : Nat := rotr32 17 x ^^^ rotr32 19 x ^^^ (x >>> 10)

/-- The SHA-256 round constants (FIPS 180-4), written in decimal. -/
def sha256K : List Nat :=
  [1116352408, 1899447441, 3049323471, 3921009573, 961987163, 1508970993,
   2453635748, 2870763221, 3624381080, 310598401, 607225278, 1426881987,
   1925078388, 2162078206, 2614888103, 3248222580, 3835390401, 4022224774,
   264347078, 604807628, 770255983, 1249150122, 1555081692, 1996064986,
   2554220882, 2821834349, 2952996808, 3210313671, 3336571891, 3584528711,
   113926993, 338241895, 666307205, 773529912, 1294757372, 1396182291,
   1695183700, 1986661051, 2177026350, 2456956037, 2730485921, 2820302411,
   3259730800, 3345764771, 3516065817, 3600352804, 4094571909, 275423344,
   430227734, 506948616, 659060556, 883997877, 958139571, 1322822218,
   1537002063, 1747873779, 1955562222, 2024104815, 2227730452, 2361852424,
   2428436474, 2756734187, 3204031479, 3329325298]

/-- The SHA-256 initial hash state (FIPS 180-4), written in decimal. -/
def sha256H0 : List Nat :=
  [1779033703, 3144134277, 1013904242, 2773480762,
   1359893119, 2600822924, 528734635, 1541459225]

/-- One message-schedule extension step: append the next schedule word. -/
def scheduleStep (ws : List Nat) : List Nat :=
  ws ++ [(smallSigma1 (ws.getD (ws.length - 2) 0) + ws.getD (ws.length - 7) 0 +
          smallSigma0 (ws.getD (ws.length - 15) 0) + ws.getD (ws.length - 16) 0) % M32]

/-- One compression round on the state `[a, b, c, d, e, f, g, h]`. -/
def sha256Round (st : List Nat) (kw : Nat × Nat) : List Nat :=
  let a := st.getD 0 0
  let b := st.getD 1 0
  let c := st.getD 2 0
  let d := st.getD 3 0
  let e := st.getD 4 0
  let f := st.getD 5 0
  let g := st.getD 6 0
  let h := st.getD 7 0
  let t1 := (h + bigSigma1 e + sha256Ch e f g + kw.1 + kw.2) % M32
  let t2 := (bigSigma0 a + sha256Maj a b c) % M32
  [(t1 + t2) % M32, a, b, c, (d + t1) % M32, e, f, g]

/-- Compress one 16-word block into the running hash state. -/
def compressBlock (h : List Nat) (block : List Nat) : List Nat :=
  let ws := scheduleStep^[48] block
  let st := (sha256K.zip ws).foldl sha256Round h
  List.zipWith (fun x y => (x + y) % M32) h st

/-- Group a byte list into big-endian 32-bit words. -/
def toWords : List Nat → List Nat
  | b0 :: b1 :: b2 :: b3 :: rest =>
      (((b0 * 256 + b1) * 256 + b2) * 256 + b3) :: toWords rest
  | _ => []

/-- Compress `n` successive 64-byte blocks of `msg` into the hash state. -/
def sha256Loop : Nat → List Nat → List Nat → List Nat
  | 0, h, _ => h
  | n + 1, h, msg => sha256Loop n (compressBlock h (toWords (msg.take 64))) (msg.drop 64)

/-- The 8-byte big-endian encoding of a length-in-bits. -/
def length8 (n : Nat) : List Nat :=
  [n / 2 ^ 56 % 256, n / 2 ^ 48 % 256, n / 2 ^ 40 % 256, n / 2 ^ 32 % 256,
   n / 2 ^ 24 % 256, n / 2 ^ 16 % 256, n / 2 ^ 8 % 256, n % 256]

/-- SHA-256 padding: a `0x80` byte, zeros to 56 mod 64, then the bit length. -/
def sha256Pad (msg : List Nat) : List Nat :=
  msg ++ [128] ++ List.replicate ((119 - msg.length % 64) % 64) 0 ++ length8 (msg.length * 8)

/-- Split one 32-bit word into four big-endian bytes. -/
def wordBytes (w : Nat) : List Nat := [w / 2 ^ 24 % 256, w / 2 ^ 16 % 256, w / 2 ^ 8 % 256, w % 256]

/-- SHA-256 of a byte list, producing the 32-byte digest. -/
def sha256 (msg : List Nat) : List Nat :=
  let padded := sha256Pad msg
  let h := sha256Loop (padded.length / 64) sha256H0 padded
  (h.map wordBytes).flatten

/-! ## HMAC-SHA256, as `hmac.new(key, body, hashlib.sha256).digest()` -/

/-- HMAC-SHA256 of a message under a key, both byte lists. -/
def hmacSha256 (key msg : List Nat) : List Nat :=
  let k0 := if key.length > 64 then sha256 key else key
  let k := k0 ++ List.replicate (64 - k0.length) 0
  sha256 ((k.map (fun b => b ^^^ 92)) ++ sha256 ((k.map (fun b => b ^^^ 54)) ++ msg))

/-! ## UTF-8 encoding, as Python's `str.encode("utf-8")` -/

/-- UTF-8 encoding of one code point. -/
def utf8Char (c : Char) : List Nat :=
  let n := c.toNat
  if n < 128 then [n]
  else if n < 2048 then [192 + n / 64, 128 + n % 64]
  else if n < 65536 then [224 + n / 4096, 128 + n / 64 % 64, 128 + n % 64]
  else [240 + n / 262144, 128 + n / 4096 % 64, 128 + n / 64 % 64, 128 + n % 64]

/-- UTF-8 encoding of a string as a byte list. -/
def utf8Encode (s : String) : List Nat := (s.data.map utf8Char).flatten

/-! ## Application definitions, translated from `src/app.py` -/

/-- The environment configuration read by `os.getenv` at startup; `none`
models an unset variable. -/
structure Env where
  LINE_CHANNEL_SECRET : Option String
  LINE_CHANNEL_ACCESS_TOKEN : Option String

/-- Python truthiness of an optional string: `False` for `None` and `""`. -/
def truthy : Option String → Bool
  | none => false
  | some s => decide (s ≠ "")

/-- Translation of `verify_signature` (app.py lines 70-78): reject when the
secret is unset or empty, otherwise compare the header value with the base64
of the HMAC-SHA256 digest of the body under the UTF-8 encoded secret.  A
missing header (`Header(None)`) compares unequal to any string, as in Python. -/
def verify_signature (secret : Option String) (body : List Nat) (signature : Option String) : Bool :=
  match secret with
  | none => false
  | some s =>
      if s = "" then false
      else
        let hash := hmacSha256 (utf8Encode s) body
        match signature with
        | none => false
        | some sig => decide (b64encode hash = sig)

/-- Translation of `truncate_text` (app.py lines 80-83). -/
def truncate_text (text : String) (max_length : Nat := 4800) : String :=
  if text.length ≤ max_length then text
  else ⟨text.data.take (max_length - 3)⟩ ++ "..."

/-- The keyword list inside `decide_response_params` (app.py line 89). -/
def system_keywords : List String :=
  ["毛氈", "盆組", "布袋", "系統", "工程", "結構", "灌溉系統", "自動灌溉"]

/-- Python's substring containment `sub in s` over code points. -/
def strContains (s sub : String) : Bool :=
  s.data.tails.any (fun t => sub.data.isPrefixOf t)

/-- The `any(keyword in user_msg for keyword in system_keywords)` test of
`decide_response_params` (app.py line 90). -/
def has_system_keyword (user_msg : String) : Bool :=
  system_keywords.any (fun keyword => strContains user_msg keyword)

/-- Translation of `decide_response_params` (app.py lines 85-106). -/
def decide_response_params (user_msg : String) : Nat × String :=
  let length := user_msg.length
  if length < 20 ∧ ¬has_system_keyword user_msg then
    (150, "使用者問得很簡單，用 1~2 句話回答，不要提系統細節。")
  else if length < 50 ∧ ¬has_system_keyword user_msg then
    (300, "用 2~3 句話回答，重點在實用建議，不提系統分類。")
  else if has_system_keyword user_msg then
    (600, "使用者問到系統相關，可以適當說明，但不要過度展開。")
  else if length < 150 then
    (500, "請適當展開，但不要囉嗦。")
  else
    (800, "使用者提供較多資訊，可以詳細回答。")

/-- The persona system prompt `BASE_SYSTEM_PROMPT` (app.py lines 43-67). -/
def BASE_SYSTEM_PROMPT : String :=
  "\n你是一位在台灣植生牆界打滾超過 20 年的「傳奇導師」。你見證過從早期簡陋的篋網式，到現在尖端的自動化智慧灌溉系統的演進。你說話幽默風趣，像個愛開玩笑但手底見真章的老頑童。你對植物有深厚的情感，視它們為生命而非裝飾品。\n\n專業領域：\n- 工程與報價：精通毛氈式、盆組式、布袋式系統的結構安全、施工細節與長期維護成本。\n- 植物生理學：專精 CAM 植物（如積水鳳梨、鹿角蕨）的生理機制，擅長診斷氣孔、蒸散作用與養分吸收問題。\n- 實務環境預判：能一眼看出哪些牆面是「植物墳場」，並針對光、水、氣、肥給出精準對策。\n\n回應風格：\n1. 幽默接地氣，多用生動比喻。\n2. 涉及預算或報價時，拆解四個維度：系統選型、植物等級、環境工程、長期維修。\n3. 診斷植物問題時，依序檢查：光、水、氣、肥。\n\n📏 重要：你要懂得察言觀色，根據使用者的問題長度決定回應長度：\n- 如果使用者只問短短一句（例如「多少錢」、「怎麼了」、「推薦嗎」），回答控制在 3 句話以內，約 30~50 字。\n- 如果使用者稍微描述情況（例如「我家客廳西曬適合什麼植物」），回答 80~120 字，重點給實用建議。\n- 只有當使用者明顯在問詳細分析（例如「請幫我分析三種系統的優缺點」），才給詳細比較。\n- 報價時四維度都要提，但每點用一句話帶過，不要長篇大論。\n\n🎯 話題聚焦規則（重要）：\n- 除非使用者「明確問到」毛氈式、盆組式、布袋式等系統細節，否則不要主動介紹這些工程名詞。\n- 一般問題（如植物生病、適合什麼植物、大概預算）直接給答案，不要從系統分類開始講。\n- 如果使用者問「哪種系統好」或「毛氈式怎樣」，才可以深入說明。\n- 簡單來說：拎北要知道什麼時候該講技術，什麼時候該閉嘴！\n"

/-- A message carried by a LINE webhook event: a `TextMessage` or any other
message type (image, sticker, ...). -/
inductive LineMessage where
  | text (content : String)
  | nonText
deriving DecidableEq

/-- A parsed LINE webhook event: a `MessageEvent` from a user, or any other
event type (follow, join, postback, ...). -/
inductive LineEvent where
  | message (user_id : String) (msg : LineMessage)
  | nonMessage
deriving DecidableEq

/-- Outcome of `parser.parse` on the request body, an external-SDK call
modelled as an oracle: a list of events, an `InvalidSignatureError`, or any
other exception (including a body that fails UTF-8 decoding). -/
inductive ParseOutcome where
  | ok (events : List LineEvent)
  | invalidSignatureError
  | otherError
deriving DecidableEq

/-- Outcome of one `client.chat.completions.create` call, an external HTTP
call modelled as an oracle: the generated text, an `APITimeoutError`, an
`APIError` with its message, or any other exception. -/
inductive CompletionOutcome where
  | ok (content : String)
  | apiTimeoutError
  | apiError (message : String)
  | otherError
deriving DecidableEq

/-- The observable content of one completion call issued by the handler.
Temperature is recorded in tenths (7 for 0.7, 8 for 0.8) to stay in exact
arithmetic. -/
structure CompletionCall where
  system_content : String
  user_content : String
  temperatureTenths : Nat
  max_tokens : Nat
deriving DecidableEq

/-- The observable result of one webhook request: the HTTP response text,
the completion calls issued, and the `(user_id, text)` push messages
dispatched (push delivery failures are swallowed by the source and change
nothing observable here). -/
structure WebhookResult where
  response : String
  completionCalls : List CompletionCall
  pushMessages : List (String × String)
deriving DecidableEq

/-- The body of the `for` loop for one text-message event (app.py lines
144-186): choose response parameters, issue the completion call, fall back
to the canned replies on failure, truncate, and push. -/
def handleTextMessage (outcome : CompletionOutcome) (user_id user_msg : String) :
    CompletionCall × (String × String) :=
  let params := decide_response_params user_msg
  let max_tokens := params.1
  let length_instruction := params.2
  let system_content := BASE_SYSTEM_PROMPT ++ "\n\n本次回應特別指示：" ++ length_instruction
  let call : CompletionCall :=
    ⟨system_content, user_msg, if max_tokens < 400 then 7 else 8, max_tokens⟩
  let reply :=
    match outcome with
    | .ok content => content
    | .apiTimeoutError => "哎呀，DeepSeek 今天睡著了，你再問一次看看？"
    | .apiError message => "DeepSeek 出錯了：" ++ message
    | .otherError => "拎北腦袋突然打結，等一下再問啦～"
  let final_reply := truncate_text reply
  (call, (user_id, final_reply))

/-- Sequential processing of the parsed events (app.py lines 142-186).  The
completion oracle is indexed by the number of completion calls made so far;
events that are not text-message events are skipped. -/
def processEvents (completion : Nat → CompletionOutcome) :
    List LineEvent → Nat → List CompletionCall × List (String × String)
  | [], _ => ([], [])
  | e :: rest, k =>
      match e with
      | .message user_id (.text user_msg) =>
          let r := handleTextMessage (completion k) user_id user_msg
          let tailRes := processEvents completion rest (k + 1)
          (r.1 :: tailRes.1, r.2 :: tailRes.2)
      | _ => processEvents completion rest k

/-- Translation of the webhook POST handler (app.py lines 119-188).  The
`parser`/`line_bot_api` globals exist exactly when the corresponding
environment variable is truthy, so `if not parser or not line_bot_api`
becomes the truthiness test on the two variables. -/
def webhook (env : Env) (body : List Nat) (x_line_signature : Option String)
    (parse : ParseOutcome) (completion : Nat → CompletionOutcome) : WebhookResult :=
  if verify_signature env.LINE_CHANNEL_SECRET body x_line_signature = false then
    ⟨"OK", [], []⟩
  else if truthy env.LINE_CHANNEL_SECRET = false ∨ truthy env.LINE_CHANNEL_ACCESS_TOKEN = false then
    ⟨"OK", [], []⟩
  else
    match parse with
    | .invalidSignatureError => ⟨"OK", [], []⟩
    | .otherError => ⟨"OK", [], []⟩
    | .ok events =>
        let r := processEvents completion events 0
        ⟨"OK", r.1, r.2⟩

/-- The `isinstance(event, MessageEvent) and isinstance(event.message,
TextMessage)` test (app.py line 143). -/
def isTextMessageEvent : LineEvent → Bool
  | .message _ (.text _) => true
  | _ => false

/-! ## Helper lemmas -/

/-- Base64 decoding inverts the character table on 6-bit values. -/
theorem b64Val_b64Char : ∀ x : Nat, x < 64 → b64Val (b64Char x) = x := by decide

/-- No 6-bit value encodes to the padding character. -/
theorem b64Char_ne_pad : ∀ x : Nat, x < 64 → b64Char x ≠ '=' := by decide

/-- Base64 decoding is a left inverse of encoding on byte lists. -/
theorem b64_decode_encode : ∀ l : List Nat, (∀ b ∈ l, b < 256) → b64DecodeList (b64EncodeList l) = l
  | b0 :: b1 :: b2 :: b3 :: rest, h => by
      have hb0 : b0 < 256 := h b0 (by simp)
      have hb1 : b1 < 256 := h b1 (by simp)
      have hb2 : b2 < 256 := h b2 (by simp)
      have ih := b64_decode_encode (b3 :: rest) (fun b hb => h b (by simp [List.mem_cons] at hb ⊢; tauto))
      simp only [b64EncodeList, b64DecodeList]
      rw [if_neg (b64Char_ne_pad _ (by omega)), if_neg (b64Char_ne_pad _ (by omega))]
      rw [b64Val_b64Char _ (by omega), b64Val_b64Char _ (by omega),
          b64Val_b64Char _ (by omega), b64Val_b64Char _ (by omega)]
      simp only [List.cons.injEq]
      exact ⟨by omega, by omega, by omega, ih⟩
  | [b0, b1, b2], h => by
      have hb0 : b0 < 256 := h b0 (by simp)
      have hb1 : b1 < 256 := h b1 (by simp)
      have hb2 : b2 < 256 := h b2 (by simp)
      simp only [b64EncodeList, b64DecodeList]
      rw [if_neg (b64Char_ne_pad _ (by omega)), if_neg (b64Char_ne_pad _ (by omega))]
      rw [b64Val_b64Char _ (by omega), b64Val_b64Char _ (by omega),
          b64Val_b64Char _ (by omega), b64Val_b64Char _ (by omega)]
      simp only [List.cons.injEq]
      exact ⟨by omega, by omega, by omega, trivial⟩
  | [b0, b1], h => by
      have hb0 : b0 < 256 := h b0 (by simp)
      have hb1 : b1 < 256 := h b1 (by simp)
      simp only [b64EncodeList, b64DecodeList]
      rw [if_neg (b64Char_ne_pad _ (by omega)), if_pos trivial]
      rw [b64Val_b64Char _ (by omega), b64Val_b64Char _ (by omega), b64Val_b64Char _ (by omega)]
      simp only [List.cons.injEq]
      exact ⟨by omega, by omega, trivial⟩
  | [b0], h => by
      have hb0 : b0 < 256 := h b0 (by simp)
      simp only [b64EncodeList, b64DecodeList]
      rw [if_pos trivial]
      rw [b64Val_b64Char _ (by omega), b64Val_b64Char _ (by omega)]
      simp only [List.cons.injEq]
      exact ⟨by omega, trivial⟩
  | [], _ => rfl

/-- Base64 encoding is injective on byte lists. -/
theorem b64encode_inj (l1 l2 : List Nat) (h1 : ∀ b ∈ l1, b < 256) (h2 : ∀ b ∈ l2, b < 256)
    (he : b64encode l1 = b64encode l2) : l1 = l2 := by
  have hdata : b64EncodeList l1 = b64EncodeList l2 := congrArg String.data he
  calc l1 = b64DecodeList (b64EncodeList l1) := (b64_decode_encode l1 h1).symm
    _ = b64DecodeList (b64EncodeList l2) := by rw [hdata]
    _ = l2 := b64_decode_encode l2 h2

/-- Every byte of a SHA-256 digest is below 256. -/
theorem sha256_bytes_lt (msg : List Nat) : ∀ b ∈ sha256 msg, b < 256 := by
  intro b hb
  simp only [sha256, List.mem_flatten, List.mem_map] at hb
  obtain ⟨l, ⟨w, _, rfl⟩, hbl⟩ := hb
  simp only [wordBytes, List.mem_cons, List.not_mem_nil, or_false] at hbl
  rcases hbl with rfl | rfl | rfl | rfl <;> omega

/-- Every byte of an HMAC-SHA256 digest is below 256. -/
theorem hmacSha256_bytes_lt (key msg : List Nat) : ∀ b ∈ hmacSha256 key msg, b < 256 := by
  intro b hb
  simp only [hmacSha256] at hb
  exact sha256_bytes_lt _ b hb

/-- With a truthy secret, `verify_signature` accepts exactly the base64 of
the HMAC-SHA256 digest. -/
theorem verify_signature_eq_true_iff (secret : String) (hs : secret ≠ "") (body : List Nat)
    (signature : Option String) :
    verify_signature (some secret) body signature = true ↔
      signature = some (b64encode (hmacSha256 (utf8Encode secret) body)) := by
  simp only [verify_signature]
  rw [if_neg hs]
  cases signature with
  | none => simp
  | some sig => simp [eq_comm]

/-- A request that passes signature verification has a truthy secret. -/
theorem verify_true_truthy (secret : Option String) (body : List Nat) (sig : Option String)
    (h : verify_signature secret body sig = true) : truthy secret = true := by
  cases secret with
  | none => simp [verify_signature] at h
  | some s =>
      by_cases hs : s = ""
      · subst hs; simp [verify_signature] at h
      · simp [truthy, hs]

/-- On a verified request with credentials present, the handler's result is
success plus the effects of processing the parsed events. -/
theorem webhook_ok_events (env : Env) (body : List Nat) (sig : Option String)
    (events : List LineEvent) (completion : Nat → CompletionOutcome)
    (hv : verify_signature env.LINE_CHANNEL_SECRET body sig = true)
    (ht : truthy env.LINE_CHANNEL_ACCESS_TOKEN = true) :
    webhook env body sig (ParseOutcome.ok events) completion =
      ⟨"OK", (processEvents completion events 0).1, (processEvents completion events 0).2⟩ := by
  have hts := verify_true_truthy _ _ _ hv
  unfold webhook
  rw [if_neg (by simp [hv]), if_neg (by simp [hts, ht])]

/-- Events that are not text-message events contribute no completion calls
and no pushes. -/
theorem processEvents_no_text (completion : Nat → CompletionOutcome) :
    ∀ (events : List LineEvent) (k : Nat), (∀ e ∈ events, isTextMessageEvent e = false) →
      processEvents completion events k = ([], []) := by
  intro events
  induction events with
  | nil => intro k _; rfl
  | cons e rest ih =>
      intro k h
      have hrest : ∀ x ∈ rest, isTextMessageEvent x = false :=
        fun x hx => h x (List.mem_cons_of_mem _ hx)
      cases e with
      | nonMessage => simpa [processEvents] using ih k hrest
      | message uid m =>
          cases m with
          | text c => exact absurd (h _ (List.mem_cons_self _ _)) (by simp [isTextMessageEvent])
          | nonText => simpa [processEvents] using ih k hrest

/-- The embedding of SHA-256 reproduces the standard test vector for the
empty message. -/
theorem sha256_empty_test_vector : sha256 [] =
    [0xe3, 0xb0, 0xc4, 0x42, 0x98, 0xfc, 0x1c, 0x14, 0x9a, 0xfb, 0xf4, 0xc8, 0x99, 0x6f, 0xb9, 0x24,
     0x27, 0xae, 0x41, 0xe4, 0x64, 0x9b, 0x93, 0x4c, 0xa4, 0x95, 0x99, 0x1b, 0x78, 0x52, 0xb8, 0x55] := by
  decide

/-- The embedding of SHA-256 reproduces the standard test vector for
`"abc"`. -/
theorem sha256_abc_test_vector : sha256 (utf8Encode "abc") =
    [186, 120, 22, 191, 143, 1, 207, 234, 65, 65, 64, 222, 93, 174, 34, 35,
     176, 3, 97, 163, 150, 23, 122, 156, 180, 16, 255, 97, 242, 0, 21, 173] := by
  decide

/-- The embedding of base64 reproduces a padded encoding. -/
theorem b64encode_test_vector : b64encode (utf8Encode "ab") = "YWI=" := by decide

/-- The embedding of HMAC-SHA256 plus base64 reproduces the value Python's
`base64.b64encode(hmac.new(b"secret", b"x", hashlib.sha256).digest())`
computes. -/
theorem hmac_b64_test_vector : b64encode (hmacSha256 (utf8Encode "secret") (utf8Encode "x")) =
    "EX7KMy9+E8y45FdOTzPaohKpIxNTZwwri0eX3wu3evo=" := by decide

/-! ## Claim theorems -/

/-- C1: for every body and signature header value, `verify_signature` under a
configured (nonempty) secret returns true iff the signature equals the base64
of the HMAC-SHA256 digest of the body under the secret; consequently any
change to the body or the secret that changes the digest causes rejection of
the old digest's signature. -/
theorem verify_signature_correct (secret : String) (body : List Nat) (signature : Option String)
    (hs : secret ≠ "") :
    (verify_signature (some secret) body signature = true ↔
      signature = some (b64encode (hmacSha256 (utf8Encode secret) body)))
    ∧ ∀ (secret2 : String) (body2 : List Nat), secret2 ≠ "" →
        hmacSha256 (utf8Encode secret2) body2 ≠ hmacSha256 (utf8Encode secret) body →
        verify_signature (some secret2) body2
          (some (b64encode (hmacSha256 (utf8Encode secret) body))) = false := by
  refine ⟨verify_signature_eq_true_iff secret hs body signature, ?_⟩
  intro secret2 body2 hs2 hne
  by_contra hv
  rw [Bool.not_eq_false] at hv
  have hsome := (verify_signature_eq_true_iff secret2 hs2 body2 _).mp hv
  have hb : b64encode (hmacSha256 (utf8Encode secret) body) =
      b64encode (hmacSha256 (utf8Encode secret2) body2) := by
    exact Option.some.inj hsome
  exact hne (b64encode_inj _ _ (hmacSha256_bytes_lt _ _) (hmacSha256_bytes_lt _ _) hb.symm)

/-- C1 witness: the exact digest signature for body `"x"` under secret
`"secret"` is accepted. -/
theorem verify_signature_correct_witness :
    verify_signature (some "secret") [120] (some "EX7KMy9+E8y45FdOTzPaohKpIxNTZwwri0eX3wu3evo=") = true :=
  (verify_signature_correct "secret" [120]
    (some "EX7KMy9+E8y45FdOTzPaohKpIxNTZwwri0eX3wu3evo=") (by decide)).1.mpr (by decide)

/-- C2: a request whose signature fails verification is answered with
success and triggers no processing: whatever the parse oracle or completion
oracle would do, the result is the plain success response with no completion
calls and no pushes. -/
theorem webhook_invalid_signature_no_processing (env : Env) (body : List Nat) (sig : Option String)
    (h : verify_signature env.LINE_CHANNEL_SECRET body sig = false) :
    ∀ (parse : ParseOutcome) (completion : Nat → CompletionOutcome),
      webhook env body sig parse completion = ⟨"OK", [], []⟩ := by
  intro parse completion
  unfold webhook
  rw [if_pos h]

/-- C2 witness: a concrete rejected request is acknowledged with success and
no effects. -/
theorem webhook_invalid_signature_no_processing_witness :
    webhook ⟨none, some "token"⟩ [120] (some "sig") ParseOutcome.otherError
      (fun _ => CompletionOutcome.otherError) = ⟨"OK", [], []⟩ :=
  webhook_invalid_signature_no_processing ⟨none, some "token"⟩ [120] (some "sig") (by decide)
    ParseOutcome.otherError (fun _ => CompletionOutcome.otherError)

/-- C3: the webhook POST handler returns the success response on every
input: signature failure, missing credentials, parse failure, any completion
outcome and any event list all leave the HTTP result `"OK"`. -/
theorem webhook_always_ok (env : Env) (body : List Nat) (sig : Option String)
    (parse : ParseOutcome) (completion : Nat → CompletionOutcome) :
    (webhook env body sig parse completion).response = "OK" := by
  unfold webhook
  split_ifs <;> first | rfl | (cases parse <;> rfl)

/-- C4: when the completion call for a single text-message event times out,
the dispatched reply is exactly the fixed timeout apology and the handler
still answers success. -/
theorem webhook_timeout_dispatches_apology (env : Env) (body : List Nat) (sig : Option String)
    (user_id user_msg : String) (completion : Nat → CompletionOutcome)
    (hv : verify_signature env.LINE_CHANNEL_SECRET body sig = true)
    (ht : truthy env.LINE_CHANNEL_ACCESS_TOKEN = true)
    (hc : completion 0 = CompletionOutcome.apiTimeoutError) :
    (webhook env body sig (ParseOutcome.ok [LineEvent.message user_id (LineMessage.text user_msg)])
        completion).pushMessages = [(user_id, "哎呀，DeepSeek 今天睡著了，你再問一次看看？")]
    ∧ (webhook env body sig (ParseOutcome.ok [LineEvent.message user_id (LineMessage.text user_msg)])
        completion).response = "OK" := by
  have htr : truncate_text "哎呀，DeepSeek 今天睡著了，你再問一次看看？" =
      "哎呀，DeepSeek 今天睡著了，你再問一次看看？" := by decide
  rw [webhook_ok_events env body sig _ completion hv ht]
  refine ⟨?_, rfl⟩
  show (processEvents completion [LineEvent.message user_id (LineMessage.text user_msg)] 0).2 =
    [(user_id, "哎呀，DeepSeek 今天睡著了，你再問一次看看？")]
  simp only [processEvents, hc, handleTextMessage]
  rw [htr]

/-- C4 witness: a correctly signed request whose completion times out pushes
the apology to the user. -/
theorem webhook_timeout_dispatches_apology_witness :
    (webhook ⟨some "secret", some "token"⟩ [120]
        (some "EX7KMy9+E8y45FdOTzPaohKpIxNTZwwri0eX3wu3evo=")
        (ParseOutcome.ok [LineEvent.message "U1" (LineMessage.text "hi")])
        (fun _ => CompletionOutcome.apiTimeoutError)).pushMessages
      = [("U1", "哎呀，DeepSeek 今天睡著了，你再問一次看看？")]
    ∧ (webhook ⟨some "secret", some "token"⟩ [120]
        (some "EX7KMy9+E8y45FdOTzPaohKpIxNTZwwri0eX3wu3evo=")
        (ParseOutcome.ok [LineEvent.message "U1" (LineMessage.text "hi")])
        (fun _ => CompletionOutcome.apiTimeoutError)).response = "OK" :=
  webhook_timeout_dispatches_apology ⟨some "secret", some "token"⟩ [120]
    (some "EX7KMy9+E8y45FdOTzPaohKpIxNTZwwri0eX3wu3evo=") "U1" "hi"
    (fun _ => CompletionOutcome.apiTimeoutError) (by decide) (by decide) rfl

/-- C5: `decide_response_params` is a pure deterministic function of the
text, and any text containing a configured system keyword selects the
keyword tier (600 tokens, system instruction) regardless of length. -/
theorem decide_response_params_deterministic_keyword :
    (∀ s t : String, s = t → decide_response_params s = decide_response_params t)
    ∧ ∀ s : String, has_system_keyword s = true →
        decide_response_params s = (600, "使用者問到系統相關，可以適當說明，但不要過度展開。") := by
  refine ⟨fun s t h => by rw [h], ?_⟩
  intro s h
  unfold decide_response_params
  rw [if_neg (by simp [h]), if_neg (by simp [h]), if_pos (by simp [h])]

/-- C5 witness: the two-character text `"系統"` contains a keyword and gets
the keyword tier despite its short length. -/
theorem decide_response_params_deterministic_keyword_witness :
    decide_response_params "系統" = (600, "使用者問到系統相關，可以適當說明，但不要過度展開。") :=
  decide_response_params_deterministic_keyword.2 "系統" (by decide)

/-- C6: a text shorter than 20 characters containing no configured keyword
gets the smallest budget 150 with the minimal-length instruction. -/
theorem decide_response_params_short_message (s : String)
    (h1 : s.length < 20) (h2 : has_system_keyword s = false) :
    decide_response_params s = (150, "使用者問得很簡單，用 1~2 句話回答，不要提系統細節。") := by
  unfold decide_response_params
  rw [if_pos ⟨h1, by simp [h2]⟩]

/-- C6 witness: the example `"多少錢"` is short, keyword-free, and gets the
smallest tier. -/
theorem decide_response_params_short_message_witness :
    ("多少錢" : String).length < 20 ∧ has_system_keyword "多少錢" = false ∧
    decide_response_params "多少錢" = (150, "使用者問得很簡單，用 1~2 句話回答，不要提系統細節。") :=
  ⟨by decide, by decide, decide_response_params_short_message "多少錢" (by decide) (by decide)⟩

/-- C7: `truncate_text` at the default ceiling never exceeds 4800 characters
and is idempotent. -/
theorem truncate_text_idempotent_bounded (s : String) :
    (truncate_text s).length ≤ 4800 ∧ truncate_text (truncate_text s) = truncate_text s := by
  have hlen : ∀ t : String, (truncate_text t).length ≤ 4800 := by
    intro t
    unfold truncate_text
    split_ifs with h
    · exact h
    · have hEq : t.length = t.data.length := rfl
      show (t.data.take (4800 - 3) ++ ("..." : String).data).length ≤ 4800
      have h3 : ("..." : String).data.length = 3 := rfl
      rw [List.length_append, List.length_take, h3]
      omega
  refine ⟨hlen s, ?_⟩
  have h2 := hlen s
  conv_lhs => rw [truncate_text]
  rw [if_pos h2]

/-- C8: events that are not text-message events trigger no completion call
and no dispatched reply: a single non-text event contributes nothing to the
processing, and a request whose events are all non-text produces no
completion calls and no pushes. -/
theorem webhook_nontext_events_no_effects (env : Env) (body : List Nat) (sig : Option String)
    (events : List LineEvent) (completion : Nat → CompletionOutcome)
    (h : ∀ e ∈ events, isTextMessageEvent e = false) :
    (∀ (e : LineEvent) (rest : List LineEvent) (k : Nat), isTextMessageEvent e = false →
        processEvents completion (e :: rest) k = processEvents completion rest k)
    ∧ (webhook env body sig (ParseOutcome.ok events) completion).completionCalls = []
    ∧ (webhook env body sig (ParseOutcome.ok events) completion).pushMessages = [] := by
  refine ⟨?_, ?_⟩
  · intro e rest k he
    cases e with
    | nonMessage => rfl
    | message uid m =>
        cases m with
        | text c => simp [isTextMessageEvent] at he
        | nonText => rfl
  · have hp := processEvents_no_text completion events 0 h
    unfold webhook
    split_ifs <;> simp [hp]

/-- C8 witness: a request carrying an image-message event and a non-message
event produces no completion call and no push. -/
theorem webhook_nontext_events_no_effects_witness :
    (webhook ⟨some "secret", some "token"⟩ [120]
        (some "EX7KMy9+E8y45FdOTzPaohKpIxNTZwwri0eX3wu3evo=")
        (ParseOutcome.ok [LineEvent.message "U1" LineMessage.nonText, LineEvent.nonMessage])
        (fun _ => CompletionOutcome.ok "reply")).completionCalls = []
    ∧ (webhook ⟨some "secret", some "token"⟩ [120]
        (some "EX7KMy9+E8y45FdOTzPaohKpIxNTZwwri0eX3wu3evo=")
        (ParseOutcome.ok [LineEvent.message "U1" LineMessage.nonText, LineEvent.nonMessage])
        (fun _ => CompletionOutcome.ok "reply")).pushMessages = [] :=
  (webhook_nontext_events_no_effects ⟨some "secret", some "token"⟩ [120]
    (some "EX7KMy9+E8y45FdOTzPaohKpIxNTZwwri0eX3wu3evo=")
    [LineEvent.message "U1" LineMessage.nonText, LineEvent.nonMessage]
    (fun _ => CompletionOutcome.ok "reply") (by decide)).2

/-- C9: the max-tokens value chosen by `decide_response_params` is always one
of 150, 300, 500, 600, 800, hence between 150 and 800 inclusive. -/
theorem decide_response_params_token_budget (s : String) :
    ((decide_response_params s).1 = 150 ∨ (decide_response_params s).1 = 300 ∨
     (decide_response_params s).1 = 500 ∨ (decide_response_params s).1 = 600 ∨
     (decide_response_params s).1 = 800)
    ∧ 150 ≤ (decide_response_params s).1 ∧ (decide_response_params s).1 ≤ 800 := by
  simp only [decide_response_params]
  by_cases h1 : s.length < 20 ∧ ¬has_system_keyword s = true
  · rw [if_pos h1]; simp
  · rw [if_neg h1]
    by_cases h2 : s.length < 50 ∧ ¬has_system_keyword s = true
    · rw [if_pos h2]; simp
    · rw [if_neg h2]
      by_cases h3 : has_system_keyword s = true
      · rw [if_pos h3]; simp
      · rw [if_neg h3]
        by_cases h4 : s.length < 150
        · rw [if_pos h4]; simp
        · rw [if_neg h4]; simp

/-- C10: with the signing secret unset or empty, `verify_signature` rejects
every body and signature, and the webhook handler processes nothing. -/
theorem verify_signature_unset_secret (body : List Nat) (signature : Option String) :
    verify_signature none body signature = false
    ∧ verify_signature (some "") body signature = false
    ∧ (∀ (token : Option String) (parse : ParseOutcome) (completion : Nat → CompletionOutcome),
        webhook ⟨none, token⟩ body signature parse completion = ⟨"OK", [], []⟩)
    ∧ (∀ (token : Option String) (parse : ParseOutcome) (completion : Nat → CompletionOutcome),
        webhook ⟨some "", token⟩ body signature parse completion = ⟨"OK", [], []⟩) := by
  refine ⟨rfl, by simp [verify_signature], ?_, ?_⟩ <;>
    · intro token parse completion
      unfold webhook
      rw [if_pos (by simp [verify_signature])]
